import Mathlib

/-
Verification of the metric-loading and chart-rendering pipeline of the
hawaiidashboard repository.  The definitions below are a shallow embedding of
the JavaScript in src/site/assets/main.js (the richer, deployed variant of the
pipeline; the unnamed plain variant shares the load, source-line and notes
logic).  Host primitives of the browser (fetch transport, JSON.parse,
Number.toLocaleString, Date parsing and locale date formatting) are passed in
as explicit function parameters or abstracted to their observable outcome;
everything the repository itself computes is embedded literally.
-/

/-- A JavaScript value as delivered by the host JSON parser for a response
body (the result of res.json`()`).  Numbers are modelled as rationals. -/
inductive Json where
  | null : Json
  | bool : Bool → Json
  | num : Rat → Json
  | str : String → Json
  | arr : List Json → Json
  | obj : List (String × Json) → Json

/-- Failure of loadMetric: the generic error thrown on a non-success
transport status (carrying the message built in the source), or the
rejection of res.json`()` on a body that is not well-formed JSON. -/
inductive LoadErr where
  | loadError : String → LoadErr
  | parseError : LoadErr

/-- The observable behaviour of the host transport for one URL: the success
flag res.ok, and the outcome of JSON-parsing the body (`none` means the body
is not well-formed JSON, so res.json`()` rejects). -/
structure FetchResponse where
  ok : Bool
  jsonBody : Option Json

/-- One call made to the host fetch primitive: the request URL and the cache
mode passed in the options object. -/
structure FetchCall where
  url : String
  cache : String
deriving DecidableEq

/-- Embedding of loadMetric from src/site/assets/main.js lines 5-9 (identical
in src/unnamed/part_000 lines 1-5).  It builds the relative path from the
slug, performs a single fetch with cache "no-store", throws on a non-success
status, and otherwise returns the JSON-parsed body unvalidated.  The second
component is the list of fetch calls performed. -/
def loadMetric (env : String → FetchResponse) (slug : String) :
    Except LoadErr Json × List FetchCall :=
  let url := "data/v1/" ++ slug ++ ".json"
  let call : FetchCall := { url := url, cache := "no-store" }
  let res := env url
  if !res.ok then
    (Except.error (LoadErr.loadError ("Failed to load " ++ slug)), [call])
  else
    match res.jsonBody with
    | none => (Except.error LoadErr.parseError, [call])
    | some j => (Except.ok j, [call])

/-- Modelled from the spec: the MetricDocument shape check the spec asserts
for the Loader (required fields years, hawaii, other_states_avg, title).  No
such check exists in the source; this definition exists only to state the
claim that loadMetric guarantees a typed failure on documents missing these
fields. -/
def specHasRequiredFields (j : Json) : Bool :=
  match j with
  | Json.obj fs =>
      ["years", "hawaii", "other_states_avg", "title"].all
        (fun k => fs.any (fun kv => kv.fst == k))
  | _ => false

/-- A transport environment whose every response has a success status and a
body that is the well-formed JSON object with no fields at all. -/
def envMissingFields : String → FetchResponse :=
  fun _ => { ok := true, jsonBody := some (Json.obj []) }

/-- A transport environment whose every response has a non-success status. -/
def envDown : String → FetchResponse :=
  fun _ => { ok := false, jsonBody := none }

/-- The string t occurs inside s: s splits as a prefix, t, and a suffix. -/
def strContains (s t : String) : Prop :=
  ∃ a b, s = a ++ t ++ b

/-- A source attribution record of a MetricDocument, with its optional
human-readable URL. -/
structure SourceRec where
  human_url : Option String := none
deriving DecidableEq

/-- A MetricDocument as delivered by the data files: the typed shape the
renderer consumes.  Optional fields model fields that may be absent from the
JSON object; series entries are numeric or absent (null). -/
structure MetricDoc where
  title : String
  unit : Option String := none
  years : List Int
  hawaii : List (Option Rat)
  other_states_avg : List (Option Rat)
  source : Option SourceRec := none
  last_updated_utc : Option String := none
  notes : Option (List String) := none
deriving DecidableEq

/-- JavaScript truthiness of a string-or-absent value: absent (undefined)
and the empty string are falsy, every other string is truthy. -/
def jsTruthy : Option String → Bool
  | none => false
  | some s => s != ""

/-- One dataset entry of the Chart.js configuration built by makeLineChart.
The first dataset omits borderDash in the source; omission is the Chart.js
default of a solid stroke, modelled as the empty dash list. -/
structure Dataset where
  label : String
  data : List (Option Rat)
  borderColor : String
  backgroundColor : String
  borderWidth : Nat
  borderDash : List Nat := []
  tension : Rat
  pointRadius : Nat
deriving DecidableEq

/-- An axis title block of the Chart.js configuration. -/
structure AxisTitle where
  display : Bool
  text : String
deriving DecidableEq

/-- The options object the tooltip label callback passes to the host
Number.toLocaleString. -/
structure NumFmtOptions where
  maximumFractionDigits : Nat
deriving DecidableEq

/-- The declarative chart configuration makeLineChart hands to the external
Chart.js collaborator.  tooltipUnit records the unit value captured by the
tooltip label callback closure; the identity y-tick callback of the source
carries no information and is not recorded. -/
structure ChartConfig where
  ctype : String
  labels : List Int
  datasets : List Dataset
  responsive : Bool
  interactionMode : String
  interactionIntersect : Bool
  titleDisplay : Bool
  titleText : String
  legendPosition : String
  tooltipUnit : Option String
  yTitle : AxisTitle
  xAutoSkip : Bool
  xMaxTicksLimit : Nat
deriving DecidableEq

/-- Embedding of makeLineChart from src/site/assets/main.js lines 11-42.
HI and OTHER are the theme colors read from CSS custom properties at module
startup; they are ambient read-only state and enter here as parameters. -/
def makeLineChart (HI OTHER : String) (years : List Int)
    (hawaii other : List (Option Rat)) (title : String)
    (unit : Option String) : ChartConfig :=
  { ctype := "line"
    labels := years
    datasets := [
      { label := "Hawaiʻi", data := hawaii, borderColor := HI,
        backgroundColor := HI, borderWidth := 2, tension := (0.2 : Rat),
        pointRadius := 2 },
      { label := "Other U.S. States (avg)", data := other,
        borderColor := OTHER, backgroundColor := OTHER, borderWidth := 2,
        borderDash := [6, 4], tension := (0.2 : Rat), pointRadius := 2 } ]
    responsive := true
    interactionMode := "index"
    interactionIntersect := false
    titleDisplay := true
    titleText := title
    legendPosition := "bottom"
    tooltipUnit := unit
    yTitle := { display := jsTruthy unit, text := unit.getD "" }
    xAutoSkip := true
    xMaxTicksLimit := 10 }

/-- Embedding of the tooltip label callback of makeLineChart (main.js lines
29-32).  fmtNum is the host Number.toLocaleString with an undefined locale
(the viewer locale); v is ctx.parsed.y, absent when the point is null or
undefined; the callback closes over the unit of the metric. -/
def tooltipLabel (fmtNum : Rat → NumFmtOptions → String) (dsLabel : String)
    (v : Option Rat) (unit : Option String) : String :=
  dsLabel ++ ": " ++
    (match v with
     | none => "—"
     | some x => fmtNum x { maximumFractionDigits := 2 }) ++
    (if jsTruthy unit then " " ++ unit.getD "" else "")

/-- The JSON download path derived from a slug (main.js line 49). -/
def jsonUrl (slug : String) : String :=
  "data/v1/" ++ slug ++ ".json"

/-- The CSV download path derived from a slug (main.js line 50). -/
def csvUrl (slug : String) : String :=
  "data/v1/csv/" ++ slug ++ ".csv"

/-- The per-note list items built by the map in main.js line 47. -/
def noteItems (notes : List String) : List String :=
  notes.map (fun n => "<li>" ++ n ++ "</li>")

/-- The joined notes string of main.js line 47: payload.notes defaulted to
the empty array, mapped to list items, joined with the empty separator. -/
def notesStr (notes : Option (List String)) : String :=
  String.join (noteItems (notes.getD []))

/-- The notes part of the metadata template (main.js line 55): a ul wrapper
when the joined notes string is truthy, nothing otherwise. -/
def notesSection (notes : Option (List String)) : String :=
  let ns := notesStr notes
  if ns != "" then "<ul>" ++ ns ++ "</ul>" else ""

/-- The source line of the metadata fragment (main.js lines 46 and 48):
payload.source defaulted to the empty object; a hyperlink when human_url is
truthy, the static fallback label otherwise. -/
def srcLine (source : Option SourceRec) : String :=
  let src := source.getD {}
  if jsTruthy src.human_url then
    "<a href=\"" ++ src.human_url.getD "" ++
      "\" target=\"_blank\" rel=\"noopener\">Source</a>"
  else
    "Source: federal API"

/-- The display of new Date(payload.last_updated_utc).toLocaleString`()`.
dateParse is the host date parser (none models the NaN time value of an
unparseable input) and dateFmt the host locale formatter for a valid time
value; the Date built from an absent field or an unparseable string prints
as the literal text "Invalid Date". -/
def jsDateDisplay (dateParse : String → Option Int) (dateFmt : Int → String)
    (ts : Option String) : String :=
  match ts with
  | none => "Invalid Date"
  | some s =>
      match dateParse s with
      | none => "Invalid Date"
      | some t => dateFmt t

/-- The div part of the metadata template literal of main.js lines 51-54:
everything before the notes part, with the exact whitespace of the source. -/
def metaDiv (dateParse : String → Option Int) (dateFmt : Int → String)
    (slug : String) (p : MetricDoc) : String :=
  "\n    <div>" ++ srcLine p.source ++ " · Updated: " ++
    jsDateDisplay dateParse dateFmt p.last_updated_utc ++ " ·\n      " ++
    ("<a href=\"" ++ jsonUrl slug ++
      "\" target=\"_blank\" rel=\"noopener\">Download JSON</a>") ++
    " ·\n      " ++
    ("<a href=\"" ++ csvUrl slug ++
      "\"  target=\"_blank\" rel=\"noopener\">Download CSV</a>") ++
    "</div>\n    "

/-- The full innerHTML string assigned by setMetaAndDownloads (main.js lines
51-56): the div part, the notes part, and the closing whitespace of the
template literal. -/
def metaHtml (dateParse : String → Option Int) (dateFmt : Int → String)
    (slug : String) (p : MetricDoc) : String :=
  metaDiv dateParse dateFmt slug p ++ notesSection p.notes ++ "\n  "

/-- A pointwise update of a string-keyed lookup. -/
def setFun {α : Type} (f : String → Option α) (k : String) (v : α) :
    String → Option α :=
  fun x => if x = k then some v else f x

/-- Embedding of setMetaAndDownloads (main.js lines 44-57) as a DOM update:
the container with the given id receives the formatted fragment as its sole
content (full replacement). -/
def setMetaAndDownloads (dateParse : String → Option Int)
    (dateFmt : Int → String) (slug containerId : String) (p : MetricDoc)
    (dom : String → Option String) : String → Option String :=
  setFun dom containerId (metaHtml dateParse dateFmt slug p)

/-- One panel of the page as wired in the orchestrator IIFE (main.js lines
59-103): its slug, chart canvas id, metadata container id, and the fallback
text written on failure. -/
structure Panel where
  slug : String
  chartId : String
  metaId : String
  fallback : String
deriving DecidableEq

/-- The first panel of the orchestrator (main.js lines 60-69). -/
def panelYpll : Panel :=
  { slug := "public_health_ypll75_rate", chartId := "chart-ypll",
    metaId := "meta-ypll", fallback := "YPLL data unavailable." }

/-- The second panel of the orchestrator (main.js lines 71-80). -/
def panelUninsured : Panel :=
  { slug := "public_health_uninsured_share", chartId := "chart-uninsured",
    metaId := "meta-uninsured", fallback := "Uninsured data unavailable." }

/-- The third panel of the orchestrator (main.js lines 82-91). -/
def panelBroadband : Panel :=
  { slug := "broadband_adoption_households_share",
    chartId := "chart-broadband", metaId := "meta-broadband",
    fallback := "Broadband data unavailable." }

/-- The fourth panel of the orchestrator (main.js lines 93-102). -/
def panelRenewables : Panel :=
  { slug := "electricity_renewables_generation_share",
    chartId := "chart-renewables", metaId := "meta-renewables",
    fallback := "Renewables data unavailable." }

/-- The four panels in the order the orchestrator runs them. -/
def panels : List Panel :=
  [panelYpll, panelUninsured, panelBroadband, panelRenewables]

/-- An event of the orchestrator execution: a load is started (the fetch is
issued), a load settles (the awaited promise resolves or rejects), a chart is
constructed on a canvas, or a metadata container is written. -/
inductive Ev where
  | loadStart : String → Ev
  | loadEnd : String → Ev
  | chartMade : String → Ev
  | metaSet : String → Ev
deriving DecidableEq, BEq

/-- The mutable page surfaces the orchestrator writes to: the content of
each metadata container and the chart constructed on each canvas. -/
structure PageState where
  meta : String → Option String
  charts : String → Option ChartConfig

/-- The page before the orchestrator runs: nothing written anywhere. -/
def emptyPage : PageState :=
  { meta := fun _ => none, charts := fun _ => none }

/-- One try/catch block of the orchestrator IIFE, over the outcome of the
awaited load for each slug (loadRes abstracts loadMetric plus the host
delivery of the parsed document in the documented shape) and a flag telling
whether the external Chart.js constructor throws for that panel.  On success
the chart is constructed and the metadata written; any failure inside the
block is caught and the fallback text written to the metadata container of
this panel alone.  The second component accumulates the event trace; an await
of a rejected load still settles, so loadEnd is emitted on both branches. -/
def runPanel (HI OTHER : String) (dateParse : String → Option Int)
    (dateFmt : Int → String) (loadRes : String → Except LoadErr MetricDoc)
    (renderThrows : String → Bool) (acc : PageState × List Ev)
    (pnl : Panel) : PageState × List Ev :=
  let st := acc.1
  let tr := acc.2 ++ [Ev.loadStart pnl.slug]
  match loadRes pnl.slug with
  | Except.error _ =>
      ({ st with meta := setFun st.meta pnl.metaId pnl.fallback },
        tr ++ [Ev.loadEnd pnl.slug, Ev.metaSet pnl.metaId])
  | Except.ok doc =>
      if renderThrows pnl.slug then
        ({ st with meta := setFun st.meta pnl.metaId pnl.fallback },
          tr ++ [Ev.loadEnd pnl.slug, Ev.metaSet pnl.metaId])
      else
        ({ meta := setMetaAndDownloads dateParse dateFmt pnl.slug pnl.metaId
             doc st.meta,
           charts := setFun st.charts pnl.chartId
             (makeLineChart HI OTHER doc.years doc.hawaii
               doc.other_states_avg doc.title doc.unit) },
          tr ++ [Ev.loadEnd pnl.slug, Ev.chartMade pnl.chartId,
            Ev.metaSet pnl.metaId])

/-- The orchestrator IIFE (main.js lines 59-103): the four try/catch blocks
run in order inside one async function, each awaiting its own load before
its chart construction and metadata write. -/
def runPage (HI OTHER : String) (dateParse : String → Option Int)
    (dateFmt : Int → String) (loadRes : String → Except LoadErr MetricDoc)
    (renderThrows : String → Bool) : PageState × List Ev :=
  panels.foldl
    (runPanel HI OTHER dateParse dateFmt loadRes renderThrows)
    (emptyPage, [])

/-- The event trace one panel block contributes, as a function of the load
outcome and the Chart.js behaviour for its slug alone. -/
def panelTrace (loadRes : String → Except LoadErr MetricDoc)
    (renderThrows : String → Bool) (pnl : Panel) : List Ev :=
  match loadRes pnl.slug with
  | Except.error _ =>
      [Ev.loadStart pnl.slug, Ev.loadEnd pnl.slug, Ev.metaSet pnl.metaId]
  | Except.ok _ =>
      if renderThrows pnl.slug then
        [Ev.loadStart pnl.slug, Ev.loadEnd pnl.slug, Ev.metaSet pnl.metaId]
      else
        [Ev.loadStart pnl.slug, Ev.loadEnd pnl.slug,
          Ev.chartMade pnl.chartId, Ev.metaSet pnl.metaId]

/-- Index of the first occurrence of an event in a trace (the trace length
when the event does not occur). -/
def firstIdx (e : Ev) (tr : List Ev) : Nat :=
  tr.findIdx (fun x => x == e)

/-- Whether the first occurrence of e is strictly before the first
occurrence of f in the trace. -/
def precedes (e f : Ev) (tr : List Ev) : Bool :=
  firstIdx e tr < firstIdx f tr

/-- A load-outcome environment for the orchestrator in which every load
settles as a rejection. -/
def loadResAllFail : String → Except LoadErr MetricDoc :=
  fun slug => Except.error (LoadErr.loadError ("Failed to load " ++ slug))

/-- A concrete valid document used to exercise the orchestrator. -/
def docSample : MetricDoc :=
  { title := "T", unit := some "%", years := [2019, 2020],
    hawaii := [some 1, none], other_states_avg := [some 2, some (2.5 : Rat)],
    last_updated_utc := some "2024-01-01T00:00:00Z" }

/-- A load-outcome environment in which the first panel load fails and every
other load delivers the sample document. -/
def loadResFirstFails : String → Except LoadErr MetricDoc :=
  fun slug =>
    if slug = "public_health_ypll75_rate" then
      Except.error (LoadErr.loadError ("Failed to load " ++ slug))
    else
      Except.ok docSample

/-- A document with two notes, used to exercise the notes rendering. -/
def docNotes : MetricDoc :=
  { title := "T", years := [2020], hawaii := [some 1],
    other_states_avg := [some 2], notes := some ["a", "b"] }

/-- A document carrying a human-readable source URL. -/
def docLinked : MetricDoc :=
  { title := "T", years := [2020], hawaii := [some 1],
    other_states_avg := [some 2],
    source := some { human_url := some "https://example.org" } }

/-- A document with every optional field absent. -/
def docBare : MetricDoc :=
  { title := "T", years := [], hawaii := [], other_states_avg := [] }

/-- C2 counterexample: the claim that a body missing the required fields
(years, hawaii, other_states_avg, title) yields some typed failure is false.
On a success response whose body is the well-formed JSON object with no
fields, loadMetric returns that object successfully, even though it lacks
every required field. -/
theorem loadMetric_no_shape_check_cex :
    (loadMetric envMissingFields "public_health_ypll75_rate").1 =
      Except.ok (Json.obj []) ∧
    specHasRequiredFields (Json.obj []) = false :=
  ⟨rfl, rfl⟩

/-- C2 (amended): loadMetric fails with the thrown load error (message
"Failed to load " ++ slug) exactly when the transport status is non-success,
fails with the JSON-parse rejection when the status is a success but the body
is not well-formed JSON, and otherwise returns the parsed body as is, with no
validation of the MetricDocument shape. -/
theorem loadMetric_error_kinds (env : String → FetchResponse) (slug : String) :
    ((env ("data/v1/" ++ slug ++ ".json")).ok = false →
      (loadMetric env slug).1 =
        Except.error (LoadErr.loadError ("Failed to load " ++ slug))) ∧
    ((env ("data/v1/" ++ slug ++ ".json")).ok = true →
      (env ("data/v1/" ++ slug ++ ".json")).jsonBody = none →
      (loadMetric env slug).1 = Except.error LoadErr.parseError) ∧
    (∀ j, (env ("data/v1/" ++ slug ++ ".json")).ok = true →
      (env ("data/v1/" ++ slug ++ ".json")).jsonBody = some j →
      (loadMetric env slug).1 = Except.ok j) := by
  refine ⟨fun h => ?_, fun h hb => ?_, fun j h hb => ?_⟩
  · simp [loadMetric, h]
  · simp [loadMetric, h, hb]
  · simp [loadMetric, h, hb]

/-- C2 witness: on a transport environment that always answers with a
non-success status, loadMetric surfaces the load error. -/
theorem loadMetric_error_kinds_witness :
    (loadMetric envDown "m").1 =
      Except.error (LoadErr.loadError ("Failed to load " ++ "m")) :=
  (loadMetric_error_kinds envDown "m").1 rfl

/-- C8: every call to loadMetric performs exactly one fetch, at the relative
path derived verbatim from the slug, with the transport cache explicitly
bypassed ("no-store"); the trace is the same single call whatever the
response, so a failed read is never followed by a second read. -/
theorem loadMetric_single_fetch (env : String → FetchResponse) (slug : String) :
    (loadMetric env slug).2 =
      [{ url := "data/v1/" ++ slug ++ ".json", cache := "no-store" }] ∧
    (loadMetric env slug).2.length = 1 := by
  constructor <;>
    · unfold loadMetric
      cases h : (env ("data/v1/" ++ slug ++ ".json")).ok <;>
        simp [h] <;> cases (env ("data/v1/" ++ slug ++ ".json")).jsonBody <;> simp

/-- String.join of a cons is the head appended to the join of the tail. -/
theorem string_join_cons (a : String) (l : List String) :
    String.join (a :: l) = a ++ String.join l := by
  apply String.ext
  simp [String.join_eq, String.data_append]

/-- A string of positive length is not the empty string. -/
theorem string_ne_empty_of_length_pos (s : String) (h : 0 < s.length) :
    s ≠ "" := by
  intro he
  rw [he] at h
  exact Nat.lt_irrefl 0 h

/-- The joined notes string of a nonempty notes list is nonempty. -/
theorem notesStr_cons_ne (x : String) (l : List String) :
    notesStr (some (x :: l)) ≠ "" := by
  have h1 : notesStr (some (x :: l)) =
      ("<li>" ++ x ++ "</li>") ++ String.join (noteItems l) := by
    simp [notesStr, noteItems, string_join_cons]
  apply string_ne_empty_of_length_pos
  rw [h1, String.length_append]
  have h4 : 0 < ("<li>" ++ x ++ "</li>").length := by
    rw [String.length_append, String.length_append]
    have h5 : ("<li>" : String).length = 4 := by decide
    omega
  omega

/-- The source hyperlink is never the fallback attribution label, whatever
the URL: the two strings have different lengths. -/
theorem anchor_ne_fallback (u : String) :
    "<a href=\"" ++ u ++ "\" target=\"_blank\" rel=\"noopener\">Source</a>" ≠
      "Source: federal API" := by
  intro h
  have h2 := congrArg String.length h
  rw [String.length_append, String.length_append] at h2
  have hA : ("<a href=\"" : String).length = 9 := by decide
  have hB : ("\" target=\"_blank\" rel=\"noopener\">Source</a>" : String).length
      = 43 := by decide
  have hC : ("Source: federal API" : String).length = 19 := by decide
  rw [hA, hB, hC] at h2
  omega

/-- C4: for every MetricDocument with equal-length series, makeLineChart
succeeds and yields exactly two series, labeled "Hawaiʻi" and
"Other U.S. States (avg)", each with years.length points; the comparison
series carries the dashed stroke [6, 4] while the region series is solid,
redundantly to the theme colors HI and OTHER. -/
theorem makeLineChart_series (HI OTHER title : String) (unit : Option String)
    (years : List Int) (hawaii other : List (Option Rat))
    (h1 : hawaii.length = years.length) (h2 : other.length = years.length) :
    (makeLineChart HI OTHER years hawaii other title unit).datasets.length
      = 2 ∧
    (makeLineChart HI OTHER years hawaii other title unit).datasets.map
      Dataset.label = ["Hawaiʻi", "Other U.S. States (avg)"] ∧
    (makeLineChart HI OTHER years hawaii other title unit).datasets.map
      (fun d => d.data.length) = [years.length, years.length] ∧
    (makeLineChart HI OTHER years hawaii other title unit).datasets.map
      Dataset.borderDash = [[], [6, 4]] ∧
    (makeLineChart HI OTHER years hawaii other title unit).datasets.map
      Dataset.borderColor = [HI, OTHER] := by
  refine ⟨rfl, rfl, ?_, rfl, rfl⟩
  simp [makeLineChart, h1, h2]

/-- C4 witness: the theorem applied to a concrete two-point document. -/
theorem makeLineChart_series_witness :
    (makeLineChart "#0a0" "#aaa" [2019, 2020] [some 1, none]
      [some 2, some (2.5 : Rat)] "T" (some "%")).datasets.map
      Dataset.label = ["Hawaiʻi", "Other U.S. States (avg)"] :=
  (makeLineChart_series "#0a0" "#aaa" "T" (some "%") [2019, 2020]
    [some 1, none] [some 2, some (2.5 : Rat)] rfl rfl).2.1

/-- C6: with a nonempty unit, every tooltip row is the dataset label, the
value display, and the unit suffix: a numeric value is displayed through the
host locale formatter called with a maximumFractionDigits of 2, an absent
value displays as the placeholder glyph rather than being omitted or shown
as zero, and the y-axis title is shown with the unit as its text. -/
theorem tooltip_axis_format (fmtNum : Rat → NumFmtOptions → String)
    (dsLabel HI OTHER title : String) (years : List Int)
    (hawaii other : List (Option Rat)) (u : String) (hu : u ≠ "") :
    (∀ x : Rat, tooltipLabel fmtNum dsLabel (some x) (some u) =
      dsLabel ++ ": " ++ fmtNum x { maximumFractionDigits := 2 } ++
        (" " ++ u)) ∧
    (tooltipLabel fmtNum dsLabel none (some u) =
      dsLabel ++ ": " ++ "—" ++ (" " ++ u)) ∧
    (makeLineChart HI OTHER years hawaii other title (some u)).yTitle =
      { display := true, text := u } ∧
    (makeLineChart HI OTHER years hawaii other title (some u)).tooltipUnit
      = some u := by
  have ht : jsTruthy (some u) = true := by simp [jsTruthy, hu]
  refine ⟨fun x => ?_, ?_, ?_, rfl⟩
  · simp [tooltipLabel, ht, String.append_assoc]
  · simp [tooltipLabel, ht, String.append_assoc]
  · simp [makeLineChart, ht]

/-- C6 witness: the theorem applied at a concrete formatter and unit, on the
absent-value tooltip row. -/
theorem tooltip_axis_format_witness :
    tooltipLabel (fun _ _ => "12.3") "Hawaiʻi" none (some "%") =
      "Hawaiʻi" ++ ": " ++ "—" ++ (" " ++ "%") :=
  (tooltip_axis_format (fun _ _ => "12.3") "Hawaiʻi" "h" "o" "T" [] [] []
    "%" (by decide)).2.1

/-- C7: the two download paths are pure functions of the slug alone, equal
to the literal path convention on every call, and the metadata fragment
embeds exactly these two anchors, with no further network read involved in
deriving them. -/
theorem download_urls_pure (slug : String) (dateParse : String → Option Int)
    (dateFmt : Int → String) (p : MetricDoc) :
    jsonUrl slug = "data/v1/" ++ slug ++ ".json" ∧
    csvUrl slug = "data/v1/csv/" ++ slug ++ ".csv" ∧
    strContains (metaHtml dateParse dateFmt slug p)
      ("<a href=\"" ++ jsonUrl slug ++
        "\" target=\"_blank\" rel=\"noopener\">Download JSON</a>") ∧
    strContains (metaHtml dateParse dateFmt slug p)
      ("<a href=\"" ++ csvUrl slug ++
        "\"  target=\"_blank\" rel=\"noopener\">Download CSV</a>") := by
  refine ⟨rfl, rfl, ?_, ?_⟩
  · refine ⟨"\n    <div>" ++ srcLine p.source ++ " · Updated: " ++
      jsDateDisplay dateParse dateFmt p.last_updated_utc ++ " ·\n      ",
      " ·\n      " ++
        ("<a href=\"" ++ csvUrl slug ++
          "\"  target=\"_blank\" rel=\"noopener\">Download CSV</a>") ++
        "</div>\n    " ++ notesSection p.notes ++ "\n  ", ?_⟩
    simp only [metaHtml, metaDiv, String.append_assoc]
  · refine ⟨"\n    <div>" ++ srcLine p.source ++ " · Updated: " ++
      jsDateDisplay dateParse dateFmt p.last_updated_utc ++ " ·\n      " ++
      ("<a href=\"" ++ jsonUrl slug ++
        "\" target=\"_blank\" rel=\"noopener\">Download JSON</a>") ++
      " ·\n      ",
      "</div>\n    " ++ notesSection p.notes ++ "\n  ", ?_⟩
    simp only [metaHtml, metaDiv, String.append_assoc]

/-- C9: the source line of the fragment is the hyperlink pointing at exactly
the human URL when a nonempty one is present, and the static fallback label
when the source or its URL is absent; the two are never equal, and the
fragment embeds the source line, so it never holds both. -/
theorem source_link (dateParse : String → Option Int) (dateFmt : Int → String)
    (slug : String) (p : MetricDoc) :
    (∀ u, u ≠ "" → p.source = some { human_url := some u } →
      srcLine p.source =
        "<a href=\"" ++ u ++
          "\" target=\"_blank\" rel=\"noopener\">Source</a>") ∧
    ((p.source = none ∨ p.source = some { human_url := none }) →
      srcLine p.source = "Source: federal API") ∧
    (∀ u,
      "<a href=\"" ++ u ++ "\" target=\"_blank\" rel=\"noopener\">Source</a>"
        ≠ "Source: federal API") ∧
    strContains (metaHtml dateParse dateFmt slug p) (srcLine p.source) := by
  refine ⟨fun u hu h => ?_, fun h => ?_, anchor_ne_fallback, ?_⟩
  · rw [h]
    simp [srcLine, jsTruthy, hu]
  · rcases h with h | h <;> rw [h] <;> simp [srcLine, jsTruthy]
  · refine ⟨"\n    <div>",
      " · Updated: " ++ jsDateDisplay dateParse dateFmt p.last_updated_utc ++
        " ·\n      " ++
        ("<a href=\"" ++ jsonUrl slug ++
          "\" target=\"_blank\" rel=\"noopener\">Download JSON</a>") ++
        " ·\n      " ++
        ("<a href=\"" ++ csvUrl slug ++
          "\"  target=\"_blank\" rel=\"noopener\">Download CSV</a>") ++
        "</div>\n    " ++ notesSection p.notes ++ "\n  ", ?_⟩
    simp only [metaHtml, metaDiv, String.append_assoc]

/-- C9 witness: the theorem applied to a document carrying a concrete URL. -/
theorem source_link_witness :
    srcLine (some { human_url := some "https://example.org" }) =
      "<a href=\"" ++ "https://example.org" ++
        "\" target=\"_blank\" rel=\"noopener\">Source</a>" :=
  (source_link (fun _ => none) (fun _ => "") "s" docLinked).1
    "https://example.org" (by decide) rfl

/-- C5: notes render verbatim as a list: with absent or empty notes the
fragment carries no list markup at all (it is just the div part and the
closing whitespace); with a nonempty notes list the notes part is one ul
wrapping the joined items, and the items are exactly one li per note,
holding the note strings unchanged in input order. -/
theorem notes_render (slug : String) (dateParse : String → Option Int)
    (dateFmt : Int → String) (p : MetricDoc) :
    ((p.notes = none ∨ p.notes = some []) →
      notesSection p.notes = "" ∧
      metaHtml dateParse dateFmt slug p =
        metaDiv dateParse dateFmt slug p ++ "\n  ") ∧
    (∀ x l, p.notes = some (x :: l) →
      notesSection p.notes =
        "<ul>" ++ String.join (noteItems (x :: l)) ++ "</ul>") ∧
    (∀ ns, p.notes = some ns →
      (noteItems ns).length = ns.length ∧
      ∀ i : Nat, (noteItems ns)[i]? =
        (ns[i]?).map (fun n => "<li>" ++ n ++ "</li>")) := by
  refine ⟨fun h => ?_, fun x l h => ?_, fun ns _ => ⟨?_, fun i => ?_⟩⟩
  · have hs : notesSection p.notes = "" := by
      rcases h with h | h <;> rw [h] <;> rfl
    refine ⟨hs, ?_⟩
    rw [metaHtml, hs, String.append_empty]
  · rw [h]
    have hne : (notesStr (some (x :: l)) != "") = true := by
      simp [bne_iff_ne, notesStr_cons_ne x l]
    simp only [notesSection, hne, if_true]
    rfl
  · simp [noteItems]
  · simp [noteItems, List.getElem?_map]

/-- C5 witness: the theorem applied to a document with two concrete notes. -/
theorem notes_render_witness :
    notesSection docNotes.notes =
      "<ul>" ++ String.join (noteItems ("a" :: ["b"])) ++ "</ul>" :=
  (notes_render "s" (fun _ => none) (fun _ => "") docNotes).2.1 "a" ["b"] rfl

/-- C10: the metadata formatter is total on payloads: every payload yields
the fragment assembled from the div part, the notes part, and the closing
whitespace; an absent source degrades to the fallback attribution, absent
notes to no list markup, and an absent or unparseable last_updated_utc
renders the literal text "Invalid Date" inside the fragment rather than
failing the panel. -/
theorem formatter_total_degrade (dateParse : String → Option Int)
    (dateFmt : Int → String) (slug : String) (p : MetricDoc) :
    metaHtml dateParse dateFmt slug p =
      metaDiv dateParse dateFmt slug p ++ notesSection p.notes ++ "\n  " ∧
    (p.source = none → srcLine p.source = "Source: federal API") ∧
    (p.notes = none → notesSection p.notes = "") ∧
    ((p.last_updated_utc = none ∨
        ∃ s, p.last_updated_utc = some s ∧ dateParse s = none) →
      jsDateDisplay dateParse dateFmt p.last_updated_utc = "Invalid Date" ∧
      strContains (metaHtml dateParse dateFmt slug p) "Invalid Date") := by
  refine ⟨rfl, fun h => ?_, fun h => ?_, fun h => ?_⟩
  · rw [h]; rfl
  · rw [h]; rfl
  · have hd : jsDateDisplay dateParse dateFmt p.last_updated_utc =
        "Invalid Date" := by
      rcases h with h | ⟨s, hs, hp⟩
      · rw [h]; rfl
      · rw [hs]; simp [jsDateDisplay, hp]
    refine ⟨hd, "\n    <div>" ++ srcLine p.source ++ " · Updated: ",
      " ·\n      " ++
        ("<a href=\"" ++ jsonUrl slug ++
          "\" target=\"_blank\" rel=\"noopener\">Download JSON</a>") ++
        " ·\n      " ++
        ("<a href=\"" ++ csvUrl slug ++
          "\"  target=\"_blank\" rel=\"noopener\">Download CSV</a>") ++
        "</div>\n    " ++ notesSection p.notes ++ "\n  ", ?_⟩
    simp only [metaHtml, metaDiv, hd, String.append_assoc]

/-- C10 witness: the theorem applied to a document with every optional field
absent, under a host date parser that accepts nothing. -/
theorem formatter_total_degrade_witness :
    jsDateDisplay (fun _ => none) (fun _ => "") docBare.last_updated_utc =
      "Invalid Date" :=
  ((formatter_total_degrade (fun _ => none) (fun _ => "") "s" docBare).2.2.2
    (Or.inl rfl)).1

/-- One orchestrator block leaves the metadata content of every container
other than its own untouched. -/
theorem runPanel_meta_ne (HI OTHER : String) (dateParse : String → Option Int)
    (dateFmt : Int → String) (loadRes : String → Except LoadErr MetricDoc)
    (renderThrows : String → Bool) (acc : PageState × List Ev) (pnl : Panel)
    (x : String) (hx : x ≠ pnl.metaId) :
    ((runPanel HI OTHER dateParse dateFmt loadRes renderThrows acc
        pnl).1).meta x = acc.1.meta x := by
  rcases h : loadRes pnl.slug with e | doc
  · simp [runPanel, h, setFun, hx]
  · cases hr : renderThrows pnl.slug
    · simp [runPanel, h, hr, setMetaAndDownloads, setFun, hx]
    · simp [runPanel, h, hr, setFun, hx]

/-- One orchestrator block leaves the chart of every canvas other than its
own untouched. -/
theorem runPanel_charts_ne (HI OTHER : String)
    (dateParse : String → Option Int) (dateFmt : Int → String)
    (loadRes : String → Except LoadErr MetricDoc)
    (renderThrows : String → Bool) (acc : PageState × List Ev) (pnl : Panel)
    (x : String) (hx : x ≠ pnl.chartId) :
    ((runPanel HI OTHER dateParse dateFmt loadRes renderThrows acc
        pnl).1).charts x = acc.1.charts x := by
  rcases h : loadRes pnl.slug with e | doc
  · simp [runPanel, h]
  · cases hr : renderThrows pnl.slug
    · simp [runPanel, h, hr, setFun, hx]
    · simp [runPanel, h, hr]

/-- Folding a run of orchestrator blocks none of which owns the container
leaves its metadata content untouched. -/
theorem runPanels_meta_ne (HI OTHER : String)
    (dateParse : String → Option Int) (dateFmt : Int → String)
    (loadRes : String → Except LoadErr MetricDoc)
    (renderThrows : String → Bool) (ps : List Panel)
    (acc : PageState × List Ev) (x : String)
    (hx : ∀ p ∈ ps, x ≠ p.metaId) :
    ((ps.foldl (runPanel HI OTHER dateParse dateFmt loadRes renderThrows)
        acc).1).meta x = acc.1.meta x := by
  induction ps generalizing acc with
  | nil => rfl
  | cons p ps ih =>
      rw [List.foldl_cons, ih _ (fun q hq => hx q (List.mem_cons_of_mem p hq))]
      exact runPanel_meta_ne HI OTHER dateParse dateFmt loadRes renderThrows
        acc p x (hx p (List.mem_cons_self p ps))

/-- Folding a run of orchestrator blocks none of which owns the canvas
leaves its chart untouched. -/
theorem runPanels_charts_ne (HI OTHER : String)
    (dateParse : String → Option Int) (dateFmt : Int → String)
    (loadRes : String → Except LoadErr MetricDoc)
    (renderThrows : String → Bool) (ps : List Panel)
    (acc : PageState × List Ev) (x : String)
    (hx : ∀ p ∈ ps, x ≠ p.chartId) :
    ((ps.foldl (runPanel HI OTHER dateParse dateFmt loadRes renderThrows)
        acc).1).charts x = acc.1.charts x := by
  induction ps generalizing acc with
  | nil => rfl
  | cons p ps ih =>
      rw [List.foldl_cons, ih _ (fun q hq => hx q (List.mem_cons_of_mem p hq))]
      exact runPanel_charts_ne HI OTHER dateParse dateFmt loadRes renderThrows
        acc p x (hx p (List.mem_cons_self p ps))

/-- A block whose load rejects writes its fallback text to its own
metadata container. -/
theorem runPanel_meta_fail_load (HI OTHER : String)
    (dateParse : String → Option Int) (dateFmt : Int → String)
    (loadRes : String → Except LoadErr MetricDoc)
    (renderThrows : String → Bool) (acc : PageState × List Ev) (pnl : Panel)
    (e : LoadErr) (h : loadRes pnl.slug = Except.error e) :
    ((runPanel HI OTHER dateParse dateFmt loadRes renderThrows acc
        pnl).1).meta pnl.metaId = some pnl.fallback := by
  simp [runPanel, h, setFun]

/-- A block whose chart constructor throws writes its fallback text to its
own metadata container. -/
theorem runPanel_meta_fail_render (HI OTHER : String)
    (dateParse : String → Option Int) (dateFmt : Int → String)
    (loadRes : String → Except LoadErr MetricDoc)
    (renderThrows : String → Bool) (acc : PageState × List Ev) (pnl : Panel)
    (doc : MetricDoc) (h : loadRes pnl.slug = Except.ok doc)
    (hr : renderThrows pnl.slug = true) :
    ((runPanel HI OTHER dateParse dateFmt loadRes renderThrows acc
        pnl).1).meta pnl.metaId = some pnl.fallback := by
  simp [runPanel, h, hr, setFun]

/-- A block whose load succeeds and whose chart constructor does not throw
constructs its chart from its own document and writes its formatted
fragment to its own metadata container. -/
theorem runPanel_ok_state (HI OTHER : String)
    (dateParse : String → Option Int) (dateFmt : Int → String)
    (loadRes : String → Except LoadErr MetricDoc)
    (renderThrows : String → Bool) (acc : PageState × List Ev) (pnl : Panel)
    (doc : MetricDoc) (h : loadRes pnl.slug = Except.ok doc)
    (hr : renderThrows pnl.slug = false) :
    ((runPanel HI OTHER dateParse dateFmt loadRes renderThrows acc
        pnl).1).meta pnl.metaId =
      some (metaHtml dateParse dateFmt pnl.slug doc) ∧
    ((runPanel HI OTHER dateParse dateFmt loadRes renderThrows acc
        pnl).1).charts pnl.chartId =
      some (makeLineChart HI OTHER doc.years doc.hawaii
        doc.other_states_avg doc.title doc.unit) := by
  constructor <;> simp [runPanel, h, hr, setMetaAndDownloads, setFun]

/-- The page run is the four blocks folded in page order. -/
theorem runPage_eq (HI OTHER : String) (dateParse : String → Option Int)
    (dateFmt : Int → String) (loadRes : String → Except LoadErr MetricDoc)
    (renderThrows : String → Bool) :
    runPage HI OTHER dateParse dateFmt loadRes renderThrows =
      runPanel HI OTHER dateParse dateFmt loadRes renderThrows
        (runPanel HI OTHER dateParse dateFmt loadRes renderThrows
          (runPanel HI OTHER dateParse dateFmt loadRes renderThrows
            (runPanel HI OTHER dateParse dateFmt loadRes renderThrows
              (emptyPage, []) panelYpll) panelUninsured) panelBroadband)
        panelRenewables := rfl

/-- C1: panel failure isolation in the orchestrator.  For every panel of the
page and every combination of load outcomes and Chart.js behaviour: a load
rejection or a chart-construction throw in that panel is caught inside that
panel and its own metadata container ends holding exactly its fallback
unavailable-text, while every panel whose own load succeeds and whose chart
constructor does not throw ends with its chart constructed from its own
document and its metadata container holding its own formatted fragment —
each panel outcome is fixed by the load outcome and render behaviour at its
own slug alone, unaffected by failures elsewhere. -/
theorem panel_failure_isolated (HI OTHER : String)
    (dateParse : String → Option Int) (dateFmt : Int → String)
    (loadRes : String → Except LoadErr MetricDoc)
    (renderThrows : String → Bool) (pnl : Panel) (hmem : pnl ∈ panels) :
    (∀ e, loadRes pnl.slug = Except.error e →
      ((runPage HI OTHER dateParse dateFmt loadRes renderThrows).1).meta
        pnl.metaId = some pnl.fallback) ∧
    (∀ doc, loadRes pnl.slug = Except.ok doc →
      renderThrows pnl.slug = true →
      ((runPage HI OTHER dateParse dateFmt loadRes renderThrows).1).meta
        pnl.metaId = some pnl.fallback) ∧
    (∀ doc, loadRes pnl.slug = Except.ok doc →
      renderThrows pnl.slug = false →
      ((runPage HI OTHER dateParse dateFmt loadRes renderThrows).1).meta
        pnl.metaId = some (metaHtml dateParse dateFmt pnl.slug doc) ∧
      ((runPage HI OTHER dateParse dateFmt loadRes renderThrows).1).charts
        pnl.chartId =
        some (makeLineChart HI OTHER doc.years doc.hawaii
          doc.other_states_avg doc.title doc.unit)) := by
  simp only [panels, List.mem_cons, List.not_mem_nil, or_false] at hmem
  rcases hmem with rfl | rfl | rfl | rfl
  · have hsplit : runPage HI OTHER dateParse dateFmt loadRes renderThrows =
        [panelUninsured, panelBroadband, panelRenewables].foldl
          (runPanel HI OTHER dateParse dateFmt loadRes renderThrows)
          (runPanel HI OTHER dateParse dateFmt loadRes renderThrows
            (emptyPage, []) panelYpll) := rfl
    refine ⟨fun e he => ?_, fun doc hd hr => ?_, fun doc hd hr => ⟨?_, ?_⟩⟩
    · rw [hsplit, runPanels_meta_ne HI OTHER dateParse dateFmt loadRes
        renderThrows _ _ panelYpll.metaId (by decide)]
      exact runPanel_meta_fail_load HI OTHER dateParse dateFmt loadRes
        renderThrows _ panelYpll e he
    · rw [hsplit, runPanels_meta_ne HI OTHER dateParse dateFmt loadRes
        renderThrows _ _ panelYpll.metaId (by decide)]
      exact runPanel_meta_fail_render HI OTHER dateParse dateFmt loadRes
        renderThrows _ panelYpll doc hd hr
    · rw [hsplit, runPanels_meta_ne HI OTHER dateParse dateFmt loadRes
        renderThrows _ _ panelYpll.metaId (by decide)]
      exact (runPanel_ok_state HI OTHER dateParse dateFmt loadRes
        renderThrows _ panelYpll doc hd hr).1
    · rw [hsplit, runPanels_charts_ne HI OTHER dateParse dateFmt loadRes
        renderThrows _ _ panelYpll.chartId (by decide)]
      exact (runPanel_ok_state HI OTHER dateParse dateFmt loadRes
        renderThrows _ panelYpll doc hd hr).2
  · have hsplit : runPage HI OTHER dateParse dateFmt loadRes renderThrows =
        [panelBroadband, panelRenewables].foldl
          (runPanel HI OTHER dateParse dateFmt loadRes renderThrows)
          (runPanel HI OTHER dateParse dateFmt loadRes renderThrows
            (runPanel HI OTHER dateParse dateFmt loadRes renderThrows
              (emptyPage, []) panelYpll) panelUninsured) := rfl
    refine ⟨fun e he => ?_, fun doc hd hr => ?_, fun doc hd hr => ⟨?_, ?_⟩⟩
    · rw [hsplit, runPanels_meta_ne HI OTHER dateParse dateFmt loadRes
        renderThrows _ _ panelUninsured.metaId (by decide)]
      exact runPanel_meta_fail_load HI OTHER dateParse dateFmt loadRes
        renderThrows _ panelUninsured e he
    · rw [hsplit, runPanels_meta_ne HI OTHER dateParse dateFmt loadRes
        renderThrows _ _ panelUninsured.metaId (by decide)]
      exact runPanel_meta_fail_render HI OTHER dateParse dateFmt loadRes
        renderThrows _ panelUninsured doc hd hr
    · rw [hsplit, runPanels_meta_ne HI OTHER dateParse dateFmt loadRes
        renderThrows _ _ panelUninsured.metaId (by decide)]
      exact (runPanel_ok_state HI OTHER dateParse dateFmt loadRes
        renderThrows _ panelUninsured doc hd hr).1
    · rw [hsplit, runPanels_charts_ne HI OTHER dateParse dateFmt loadRes
        renderThrows _ _ panelUninsured.chartId (by decide)]
      exact (runPanel_ok_state HI OTHER dateParse dateFmt loadRes
        renderThrows _ panelUninsured doc hd hr).2
  · have hsplit : runPage HI OTHER dateParse dateFmt loadRes renderThrows =
        [panelRenewables].foldl
          (runPanel HI OTHER dateParse dateFmt loadRes renderThrows)
          (runPanel HI OTHER dateParse dateFmt loadRes renderThrows
            (runPanel HI OTHER dateParse dateFmt loadRes renderThrows
              (runPanel HI OTHER dateParse dateFmt loadRes renderThrows
                (emptyPage, []) panelYpll) panelUninsured)
            panelBroadband) := rfl
    refine ⟨fun e he => ?_, fun doc hd hr => ?_, fun doc hd hr => ⟨?_, ?_⟩⟩
    · rw [hsplit, runPanels_meta_ne HI OTHER dateParse dateFmt loadRes
        renderThrows _ _ panelBroadband.metaId (by decide)]
      exact runPanel_meta_fail_load HI OTHER dateParse dateFmt loadRes
        renderThrows _ panelBroadband e he
    · rw [hsplit, runPanels_meta_ne HI OTHER dateParse dateFmt loadRes
        renderThrows _ _ panelBroadband.metaId (by decide)]
      exact runPanel_meta_fail_render HI OTHER dateParse dateFmt loadRes
        renderThrows _ panelBroadband doc hd hr
    · rw [hsplit, runPanels_meta_ne HI OTHER dateParse dateFmt loadRes
        renderThrows _ _ panelBroadband.metaId (by decide)]
      exact (runPanel_ok_state HI OTHER dateParse dateFmt loadRes
        renderThrows _ panelBroadband doc hd hr).1
    · rw [hsplit, runPanels_charts_ne HI OTHER dateParse dateFmt loadRes
        renderThrows _ _ panelBroadband.chartId (by decide)]
      exact (runPanel_ok_state HI OTHER dateParse dateFmt loadRes
        renderThrows _ panelBroadband doc hd hr).2
  · refine ⟨fun e he => ?_, fun doc hd hr => ?_, fun doc hd hr => ⟨?_, ?_⟩⟩
    · rw [runPage_eq]
      exact runPanel_meta_fail_load HI OTHER dateParse dateFmt loadRes
        renderThrows _ panelRenewables e he
    · rw [runPage_eq]
      exact runPanel_meta_fail_render HI OTHER dateParse dateFmt loadRes
        renderThrows _ panelRenewables doc hd hr
    · rw [runPage_eq]
      exact (runPanel_ok_state HI OTHER dateParse dateFmt loadRes
        renderThrows _ panelRenewables doc hd hr).1
    · rw [runPage_eq]
      exact (runPanel_ok_state HI OTHER dateParse dateFmt loadRes
        renderThrows _ panelRenewables doc hd hr).2

/-- C1 witness: with the first panel load rejecting and every other load
delivering the sample document, the first metadata container holds exactly
its fallback text while the second panel still constructs its chart from
its own document. -/
theorem panel_failure_isolated_witness :
    ((runPage "h" "o" (fun _ => none) (fun _ => "") loadResFirstFails
        (fun _ => false)).1).meta "meta-ypll" =
      some "YPLL data unavailable." ∧
    ((runPage "h" "o" (fun _ => none) (fun _ => "") loadResFirstFails
        (fun _ => false)).1).charts "chart-uninsured" =
      some (makeLineChart "h" "o" docSample.years docSample.hawaii
        docSample.other_states_avg docSample.title docSample.unit) :=
  ⟨(panel_failure_isolated "h" "o" (fun _ => none) (fun _ => "")
      loadResFirstFails (fun _ => false) panelYpll (by decide)).1
      (LoadErr.loadError ("Failed to load " ++ "public_health_ypll75_rate"))
      rfl,
    ((panel_failure_isolated "h" "o" (fun _ => none) (fun _ => "")
      loadResFirstFails (fun _ => false) panelUninsured (by decide)).2.2
      docSample rfl rfl).2⟩

/-- One orchestrator block appends exactly its own panel trace. -/
theorem runPanel_trace (HI OTHER : String) (dateParse : String → Option Int)
    (dateFmt : Int → String) (loadRes : String → Except LoadErr MetricDoc)
    (renderThrows : String → Bool) (acc : PageState × List Ev)
    (pnl : Panel) :
    (runPanel HI OTHER dateParse dateFmt loadRes renderThrows acc pnl).2 =
      acc.2 ++ panelTrace loadRes renderThrows pnl := by
  rcases h : loadRes pnl.slug with e | doc
  · simp [runPanel, panelTrace, h]
  · cases hr : renderThrows pnl.slug <;>
      simp [runPanel, panelTrace, h, hr]

/-- C3 (amended): the orchestrator runs the panels strictly in sequence:
its event trace is the concatenation of the four panel traces in page
order, so each panel load starts only after the previous panel block
(including the await of its load) has finished; and every panel trace
starts with its own loadStart followed by its own loadEnd, so each panel
awaits its own load before any chart construction or metadata write. -/
theorem orchestrator_sequential (HI OTHER : String)
    (dateParse : String → Option Int) (dateFmt : Int → String)
    (loadRes : String → Except LoadErr MetricDoc)
    (renderThrows : String → Bool) :
    (runPage HI OTHER dateParse dateFmt loadRes renderThrows).2 =
      panelTrace loadRes renderThrows panelYpll ++
      panelTrace loadRes renderThrows panelUninsured ++
      panelTrace loadRes renderThrows panelBroadband ++
      panelTrace loadRes renderThrows panelRenewables ∧
    (∀ pnl : Panel, ∃ rest, panelTrace loadRes renderThrows pnl =
      Ev.loadStart pnl.slug :: Ev.loadEnd pnl.slug :: rest) := by
  constructor
  · rw [runPage_eq, runPanel_trace, runPanel_trace, runPanel_trace,
      runPanel_trace]
    simp [List.append_assoc]
  · intro pnl
    rcases h : loadRes pnl.slug with e | doc
    · exact ⟨[Ev.metaSet pnl.metaId], by simp [panelTrace, h]⟩
    · cases hr : renderThrows pnl.slug
      · exact ⟨[Ev.chartMade pnl.chartId, Ev.metaSet pnl.metaId],
          by simp [panelTrace, h, hr]⟩
      · exact ⟨[Ev.metaSet pnl.metaId], by simp [panelTrace, h, hr]⟩

/-- C3 counterexample: the loads of distinct panels are not launched
concurrently.  In a run where every load settles as a rejection, the trace
holds both the loadEnd of the first panel slug and the loadStart of the
second panel slug, and the former strictly precedes the latter: the second
panel load is not even started until the first panel load has settled, so
panels are not launched without waiting on one another. -/
theorem orchestrator_sequential_cex :
    ((runPage "h" "o" (fun _ => none) (fun _ => "") loadResAllFail
        (fun _ => false)).2).contains
      (Ev.loadEnd "public_health_ypll75_rate") = true ∧
    ((runPage "h" "o" (fun _ => none) (fun _ => "") loadResAllFail
        (fun _ => false)).2).contains
      (Ev.loadStart "public_health_uninsured_share") = true ∧
    precedes (Ev.loadEnd "public_health_ypll75_rate")
      (Ev.loadStart "public_health_uninsured_share")
      ((runPage "h" "o" (fun _ => none) (fun _ => "") loadResAllFail
        (fun _ => false)).2) = true := by
  refine ⟨?_, ?_, ?_⟩ <;> decide
